import Mathlib

/-!
Shallow embedding of the authentication subsystem of the alumni interactive
website (server/controllers/authController.js, server/routes/authRoutes.js)
and of the session-list categorization of the sessions page.

The controller code is translated directly.  Collaborators that live in the
repository outside the provided sources (the User model's password hashing,
`comparePassword`, `generatePasswordResetToken`) and external libraries
(jsonwebtoken, crypto, bcrypt, the email service) are modelled from the
specification, as indicated on each definition.
-/

/-- An identity record of the Credential Store
(the User model: email, stored password hash, role, verification flag,
reset/verification ticket fields, optional profile fields). -/
structure Identity where
  _id : Nat
  fullName : String
  email : String
  /-- stored salted password hash; `none` for OAuth-only accounts, whose
  hash is never populated. -/
  password : Option String
  role : String
  isEmailVerified : Bool
  department : Option String := none
  yearOfStudy : Option String := none
  studentId : Option String := none
  googleId : Option String := none
  passwordResetToken : Option String := none
  passwordResetExpires : Option Nat := none
  emailVerificationToken : Option String := none
  emailVerificationExpires : Option Nat := none
  deriving Repr, DecidableEq

/-- The Credential Store: the collection of identity records. -/
abbrev Store := List Identity

/-- `User.findOne({ email })`: first record with the given email. -/
def findOneByEmail (db : Store) (e : String) : Option Identity :=
  db.find? (fun u => u.email = e)

/-- `User.findById(id)`: first record with the given id. -/
def findById (db : Store) (i : Nat) : Option Identity :=
  db.find? (fun u => u._id = i)

/-- Persisting a modified record (`user.save()`): replace the record with the
same id. -/
def saveUser (db : Store) (u : Identity) : Store :=
  db.map (fun v => if v._id = u._id then u else v)

/-- A fresh id for `User.create`: one more than the largest id in the store. -/
def freshId (db : Store) : Nat :=
  db.foldl (fun a u => max a u._id) 0 + 1

/-- Modelled from the spec: the store's own save path hashes the password
with a salted one-way function (bcrypt, in the User model, which is not
among the provided sources).  Modelled as an injective tagging function. -/
def bcryptHash (pw : String) : String :=
  "bcrypt$" ++ pw

/-- Modelled from the spec: `crypto.createHash('sha256').update(s).digest('hex')`,
a one-way hash of the raw ticket token.  Modelled as an injective tagging
function. -/
def sha256Hex (s : String) : String :=
  "sha256$" ++ s

/-- Modelled from the spec: `user.comparePassword(candidate)` of the User
model (not among the provided sources) checks the supplied password against
the stored hash; an identity with no stored hash matches no password. -/
def comparePassword (u : Identity) (candidate : String) : Bool :=
  u.password = some (bcryptHash candidate)

/-- Server configuration read from the environment:
`JWT_SECRET` and `JWT_EXPIRE`. -/
structure Env where
  jwtSecret : String
  jwtExpire : Nat
  deriving Repr, DecidableEq

/-- Modelled from the spec: a numeric code of a string, used by the modelled
token signature. -/
def strCode (s : String) : Nat :=
  s.data.foldl (fun a c => a * 131 + c.toNat) 7

/-- Modelled from the spec: the signature over the token payload, keyed by
the server-held secret.  The small modulus keeps concrete tokens short; no
theorem below relies on the signature being collision-free. -/
def macOf (secret : String) (id iat exp : Nat) : Nat :=
  (strCode secret + 3 * id + 5 * iat + 7 * exp) % 10

/-- Largest `j ≤ k` with `j * j ≤ n` (helper for the executable square
root). -/
def isqrtGo (n : Nat) : Nat → Nat
  | 0 => 0
  | k + 1 => if (k + 1) * (k + 1) ≤ n then k + 1 else isqrtGo n k

/-- Executable integer square root by bounded descent. -/
def isqrt (n : Nat) : Nat :=
  isqrtGo n n

/-- An injective pairing of two numbers (square packing). -/
def natPair (a b : Nat) : Nat :=
  if a < b then b * b + a else a * a + a + b

/-- Inverse of `natPair`. -/
def natUnpair (n : Nat) : Nat × Nat :=
  if n - isqrt n * isqrt n < isqrt n then (n - isqrt n * isqrt n, isqrt n)
  else (isqrt n, n - isqrt n * isqrt n - isqrt n)

/-- Modelled from the spec: the token payload (identity id, issue time,
expiry time, signature) packed into a single number. -/
def jwtEncode (id iat exp sig : Nat) : Nat :=
  natPair (natPair (natPair id iat) exp) sig

/-- Modelled from the spec: `jwt.sign({ id }, secret, { expiresIn })` —
"Bearer token: opaque to the client; encodes the identity's unique id and an
expiry; signed with a server-held secret."  The wire form is a string whose
length is the packed payload. -/
def jwtSign (secret : String) (expiresIn now id : Nat) : String :=
  String.mk (List.replicate
    (jwtEncode id now (now + expiresIn) (macOf secret id now (now + expiresIn))) '1')

/-- Modelled from the spec: the single error kind of `verify` — "No
distinction is made between expired and tampered in the contract exposed to
the caller — both surface as the same error kind." -/
inductive JwtError
  | invalidToken
  deriving Repr, DecidableEq

instance : DecidableEq (Except JwtError Nat) := fun x y =>
  match x, y with
  | Except.ok a, Except.ok b =>
    if h : a = b then Decidable.isTrue (congrArg Except.ok h)
    else Decidable.isFalse (fun hh => h (Except.ok.inj hh))
  | Except.error a, Except.error b =>
    if h : a = b then Decidable.isTrue (congrArg Except.error h)
    else Decidable.isFalse (fun hh => h (Except.error.inj hh))
  | Except.ok _, Except.error _ => Decidable.isFalse (fun hh => Except.noConfusion hh)
  | Except.error _, Except.ok _ => Decidable.isFalse (fun hh => Except.noConfusion hh)

/-- Modelled from the spec: `jwt.verify(token, secret)` — checks the
signature and that the expiry has not yet elapsed; on success yields the
embedded identity id, otherwise the single `InvalidTokenError` kind. -/
def jwtVerify (secret : String) (now : Nat) (tok : String) : Except JwtError Nat :=
  let p3 := natUnpair tok.length
  let p2 := natUnpair p3.1
  let p1 := natUnpair p2.1
  if p3.2 = macOf secret p1.1 p1.2 p2.2 ∧ now < p2.2 then
    Except.ok p1.1
  else
    Except.error JwtError.invalidToken

/-- `signToken` of the controller: issue a token for an identity id using the
configured secret and lifetime. -/
def signToken (env : Env) (now id : Nat) : String :=
  jwtSign env.jwtSecret env.jwtExpire now id

/-- The standard response envelope `{ status, message?, token?, data? }`
together with the HTTP status code it is sent with. -/
structure UserView where
  id : Nat
  fullName : String
  email : String
  role : String
  isEmailVerified : Option Bool := none
  deriving Repr, DecidableEq

structure Response where
  statusCode : Nat
  status : String
  message : Option String := none
  token : Option String := none
  data : Option UserView := none
  deriving Repr, DecidableEq

/-- The body of a signup request. -/
structure SignupRequest where
  fullName : String
  email : String
  password : String
  role : String
  department : Option String := none
  yearOfStudy : Option String := none
  studentId : Option String := none
  deriving Repr, DecidableEq

/-- `exports.signup`: reject an already-registered email with 400, otherwise
create the identity (hash populated by the store's save path, verification
flag set to true by the controller), issue a token and answer 201 with the
public projection of the new identity. -/
def signup (env : Env) (db : Store) (now : Nat) (req : SignupRequest) : Store × Response :=
  match findOneByEmail db req.email with
  | some _ =>
    (db, { statusCode := 400, status := "error", message := some "Email already registered" })
  | none =>
    let user : Identity :=
      { _id := freshId db
        fullName := req.fullName
        email := req.email
        password := some (bcryptHash req.password)
        role := req.role
        department := req.department
        yearOfStudy := req.yearOfStudy
        studentId := req.studentId
        isEmailVerified := true }
    let token := signToken env now user._id
    (db ++ [user],
      { statusCode := 201
        status := "success"
        token := some token
        data := some
          { id := user._id
            fullName := user.fullName
            email := user.email
            role := user.role
            isEmailVerified := some user.isEmailVerified } })

/-- The body of a login request; a field can be absent, and in JavaScript an
empty string is as falsy as an absent one. -/
structure LoginRequest where
  email : Option String := none
  password : Option String := none
  deriving Repr, DecidableEq

/-- JavaScript truthiness test of an optional string field: `!x`. -/
def jsFalsyStr (v : Option String) : Bool :=
  match v with
  | none => true
  | some s => s = ""

/-- `exports.login`: require both fields, look up the identity with its
stored hash, and answer the one generic 401 for a missing identity and for a
mismatching password alike; on success issue a token and answer 200. -/
def login (env : Env) (db : Store) (now : Nat) (req : LoginRequest) : Response :=
  if jsFalsyStr req.email || jsFalsyStr req.password then
    { statusCode := 400, status := "error", message := some "Please provide email and password" }
  else
    match findOneByEmail db (req.email.getD "") with
    | none =>
      { statusCode := 401, status := "error", message := some "Incorrect email or password" }
    | some u =>
      if comparePassword u (req.password.getD "") then
        { statusCode := 200
          status := "success"
          token := some (signToken env now u._id)
          data := some { id := u._id, fullName := u.fullName, email := u.email, role := u.role } }
      else
        { statusCode := 401, status := "error", message := some "Incorrect email or password" }

/-- Modelled from the spec: `user.generatePasswordResetToken()` of the User
model (not among the provided sources) — "Generates a random reset token,
stores only its one-way hash plus an expiry."  The randomness is supplied by
the caller as `rawToken`; `resetTtl` is the configured validity window. -/
def generatePasswordResetToken (rawToken : String) (now resetTtl : Nat) (u : Identity) : Identity :=
  { u with
      passwordResetToken := some (sha256Hex rawToken)
      passwordResetExpires := some (now + resetTtl) }

/-- Outcome of an outbound notification send, observed by nobody: the spec
declares the Notification Sender fire-and-forget. -/
inductive EmailOutcome
  | delivered
  | failed
  deriving Repr, DecidableEq

/-- `exports.forgotPassword`: look up the identity by email (404 when
absent), persist the hashed reset ticket, dispatch the reset email and
answer 200.  Modelled from the spec for the email service (not among the
provided sources): "All outbound email notifications are fire-and-forget
relative to the response", so `emailOutcome` is not inspected. -/
def forgotPassword (db : Store) (now resetTtl : Nat) (rawToken : String)
    (emailOutcome : EmailOutcome) (email : String) : Store × Response :=
  match findOneByEmail db email with
  | none =>
    (db, { statusCode := 404, status := "error",
           message := some "No user found with that email address" })
  | some u =>
    let u' := generatePasswordResetToken rawToken now resetTtl u
    let db' := saveUser db u'
    (db', { statusCode := 200, status := "success",
            message := some "Password reset link sent to email" })

/-- The `findOne` filter of `resetPassword`: stored ticket hash equal to the
hash of the incoming raw token, and stored expiry strictly in the future. -/
def resetTicketLive (now : Nat) (hashed : String) (u : Identity) : Bool :=
  u.passwordResetToken = some hashed &&
    match u.passwordResetExpires with
    | some e => decide (now < e)
    | none => false

/-- The in-place update `resetPassword` makes on the matched identity: the
new password (re-hashed by the save path) with both ticket fields cleared. -/
def consumeTicket (newPassword : String) (u : Identity) : Identity :=
  { u with
    password := some (bcryptHash newPassword)
    passwordResetToken := none
    passwordResetExpires := none }

/-- `exports.resetPassword`: hash the raw token from the path, find an
identity with a matching live ticket (400 otherwise), then set the new
password and clear both ticket fields in the same persisted update. -/
def resetPassword (db : Store) (now : Nat) (rawToken newPassword : String) : Store × Response :=
  let hashed := sha256Hex rawToken
  match db.find? (resetTicketLive now hashed) with
  | none =>
    (db, { statusCode := 400, status := "error",
           message := some "Invalid or expired reset token" })
  | some u =>
    (saveUser db (consumeTicket newPassword u),
     { statusCode := 200, status := "success", message := some "Password reset successfully" })

/-- The `findOne` filter of `verifyEmail`, symmetric to `resetTicketLive`. -/
def verifyTicketLive (now : Nat) (hashed : String) (u : Identity) : Bool :=
  u.emailVerificationToken = some hashed &&
    match u.emailVerificationExpires with
    | some e => decide (now < e)
    | none => false

/-- `exports.verifyEmail`: symmetric to `resetPassword` but flips the
verification flag instead of changing the password. -/
def verifyEmail (db : Store) (now : Nat) (rawToken : String) : Store × Response :=
  let hashed := sha256Hex rawToken
  match db.find? (verifyTicketLive now hashed) with
  | none =>
    (db, { statusCode := 400, status := "error",
           message := some "Invalid or expired verification token" })
  | some u =>
    let u' := { u with
      isEmailVerified := true
      emailVerificationToken := none
      emailVerificationExpires := none }
    (saveUser db u',
     { statusCode := 200, status := "success", message := some "Email verified successfully" })

/-- JavaScript `String.prototype.startsWith`, modelled on the character
list of the string. -/
def jsStartsWith (s pre : String) : Bool :=
  pre.data.isPrefixOf s.data

/-- Core of JavaScript `String.prototype.split` with a single-character
separator, on character lists.  The empty string splits to one empty
piece, as in JavaScript. -/
def splitCharList (c : Char) : List Char → List (List Char)
  | [] => [[]]
  | x :: xs =>
    match splitCharList c xs with
    | [] => [[x]]
    | h :: t => if x = c then [] :: h :: t else (x :: h) :: t

/-- JavaScript `s.split(c)` for a single-character separator. -/
def jsSplit (s : String) (c : Char) : List String :=
  (splitCharList c s.data).map String.mk

/-- Token extraction of `exports.protect`: the Authorization header, when
present and starting with `Bearer`, is split on spaces and the second word
is the token; anything else leaves the token absent. -/
def getBearerToken (authorization : Option String) : Option String :=
  match authorization with
  | some h => if jsStartsWith h "Bearer" then (jsSplit h ' ')[1]? else none
  | none => none

/-- The outcome of the access guard: either a denial response, or the
resolved identity attached to the request context with the handler allowed
to run (`req.user = currentUser; next()`). -/
inductive ProtectOutcome
  | denied (r : Response)
  | granted (user : Identity)
  deriving Repr, DecidableEq

/-- `exports.protect`: 401 when no bearer token is present (in JavaScript an
empty-string token is also falsy), 401 `Invalid token` when verification
throws, 401 when the identity behind the verified id no longer exists, and
otherwise the identity is attached and control passes on. -/
def protect (env : Env) (db : Store) (now : Nat) (authorization : Option String) : ProtectOutcome :=
  match getBearerToken authorization with
  | none =>
    ProtectOutcome.denied
      { statusCode := 401, status := "error",
        message := some "You are not logged in! Please log in to get access." }
  | some tok =>
    if tok = "" then
      ProtectOutcome.denied
        { statusCode := 401, status := "error",
          message := some "You are not logged in! Please log in to get access." }
    else
      match jwtVerify env.jwtSecret now tok with
      | Except.error _ =>
        ProtectOutcome.denied
          { statusCode := 401, status := "error", message := some "Invalid token" }
      | Except.ok id =>
        match findById db id with
        | none =>
          ProtectOutcome.denied
            { statusCode := 401, status := "error",
              message := some "The user belonging to this token no longer exists." }
        | some u => ProtectOutcome.granted u

/-- `exports.restrictTo(...roles)`: 403 when the attached identity's role is
not in the allow-list, otherwise control passes on (`none`). -/
def restrictTo (roles : List String) (user : Identity) : Option Response :=
  if roles.contains user.role then
    none
  else
    some { statusCode := 403, status := "error",
           message := some "You do not have permission to perform this action" }

/-! Session-list categorization of the sessions page (`fetchSessions`). -/

/-- The `sessionHead` subobject of a raw session. -/
structure SessionHead where
  fullName : String
  profilePhoto : Option String := none
  deriving Repr, DecidableEq

/-- A raw session as returned by the sessions API; any field the page reads
can be absent. -/
structure RawSession where
  _id : Nat
  title : Option String := none
  description : Option String := none
  sessionHead : Option SessionHead := none
  date : String := ""
  time : Option String := none
  venue : Option String := none
  status : Option String := none
  deriving Repr, DecidableEq

/-- JavaScript `x || d` on an optional string: the default is taken when the
field is absent or the empty string (both falsy). -/
def jsOrStr (v : Option String) (d : String) : String :=
  match v with
  | some s => if s = "" then d else s
  | none => d

/-- The formatted session the page builds for rendering.  The `date` and
`month` fields come from the JavaScript `Date` runtime. -/
structure FormattedSession where
  title : String
  description : String
  conductedBy : SessionHead
  profileImage : String
  date : String
  month : String
  venue : String
  location : String
  id : Nat
  status : String
  deriving Repr, DecidableEq

/-- The `formattedSession` literal of `fetchSessions`.  The day-of-month and
month-name renderings of the JavaScript `Date` runtime (an external library)
are passed in as `fmtDay` and `fmtMonth`, applied to the raw date string and
the defaulted time string; the categorization below does not depend on
them. -/
def formatSession (fmtDay fmtMonth : String → String → String) (s : RawSession) : FormattedSession :=
  let timeStr := jsOrStr s.time "00:00"
  { title := jsOrStr s.title "Untitled Session"
    description := jsOrStr s.description "No description available"
    conductedBy := s.sessionHead.getD { fullName := "TBA" }
    profileImage :=
      match s.sessionHead with
      | some h => jsOrStr h.profilePhoto "/default-profile.png"
      | none => "/default-profile.png"
    date := fmtDay s.date timeStr
    month := fmtMonth s.date timeStr
    venue := jsOrStr s.venue "TBA"
    location := jsOrStr s.venue "TBA"
    id := s._id
    status := jsOrStr s.status "upcoming" }

/-- The three buckets the page keeps in state. -/
structure CategorizedSessions where
  ongoing : List FormattedSession
  previous : List FormattedSession
  upcoming : List FormattedSession
  deriving Repr, DecidableEq

/-- `session.status === 'ongoing'`. -/
def isOngoing (s : RawSession) : Bool :=
  s.status = some "ongoing"

/-- `session.status === 'completed'`. -/
def isCompleted (s : RawSession) : Bool :=
  s.status = some "completed"

/-- One iteration of the `allSessions.forEach` loop: a null entry is
skipped, any other entry is formatted and pushed onto exactly one bucket
according to its raw status. -/
def categorizeStep (fmtDay fmtMonth : String → String → String)
    (acc : CategorizedSessions) (s? : Option RawSession) : CategorizedSessions :=
  match s? with
  | none => acc
  | some s =>
    let fs := formatSession fmtDay fmtMonth s
    if isOngoing s then
      { acc with ongoing := acc.ongoing ++ [fs] }
    else if isCompleted s then
      { acc with previous := acc.previous ++ [fs] }
    else
      { acc with upcoming := acc.upcoming ++ [fs] }

/-- The categorization performed by `fetchSessions` over the fetched list
(entries can be null, which the loop skips). -/
def categorizeSessions (fmtDay fmtMonth : String → String → String)
    (l : List (Option RawSession)) : CategorizedSessions :=
  l.foldl (categorizeStep fmtDay fmtMonth) { ongoing := [], previous := [], upcoming := [] }

/-! Concrete fixtures used by the witness theorems. -/

/-- A concrete server configuration. -/
def envK : Env := { jwtSecret := "k", jwtExpire := 2 }

/-- A concrete identity with no live ticket. -/
def idAlice : Identity :=
  { _id := 1, fullName := "Alice", email := "a@x.io",
    password := some (bcryptHash "pw1"), role := "student", isEmailVerified := true }

/-- A concrete identity holding a live reset ticket for raw token `tkt`
expiring at time 100. -/
def idBob : Identity :=
  { _id := 2, fullName := "Bob", email := "b@x.io",
    password := some (bcryptHash "pw2"), role := "alumni", isEmailVerified := true,
    passwordResetToken := some (sha256Hex "tkt"), passwordResetExpires := some 100 }

/-- A concrete signup request for an email not in the fixture store. -/
def reqCarol : SignupRequest :=
  { fullName := "Carol", email := "c@x.io", password := "pw3", role := "student" }

/-- A concrete signup request for `idAlice`'s email. -/
def reqAlice : SignupRequest :=
  { fullName := "Alice", email := "a@x.io", password := "pw1", role := "student" }

/-- A concrete token issued at time 0 for `idAlice`'s id. -/
def tokAlice : String := signToken envK 0 1

/-! Theorems, one per claim, with witnesses where the statement carries
hypotheses. -/

/-- `isqrtGo n k` finds `j` whenever `j` is the integer square root of `n`
and `j ≤ k`. -/
theorem isqrtGo_eq_of (n j : Nat) :
    ∀ k, j ≤ k → j * j ≤ n → n < (j + 1) * (j + 1) → isqrtGo n k = j := by
  intro k
  induction k with
  | zero =>
    intro hjk h1 h2
    have hj0 : j = 0 := Nat.le_zero.mp hjk
    simp [isqrtGo, hj0]
  | succ k ih =>
    intro hjk h1 h2
    unfold isqrtGo
    by_cases hk : (k + 1) * (k + 1) ≤ n
    · rw [if_pos hk]
      by_contra hne
      have hjle : j ≤ k := by
        have : j ≠ k + 1 := fun he => hne he.symm
        omega
      have hmono : (j + 1) * (j + 1) ≤ (k + 1) * (k + 1) :=
        Nat.mul_le_mul (by omega) (by omega)
      omega
    · rw [if_neg hk]
      have hjle : j ≤ k := by
        have : j ≠ k + 1 := fun he => hk (he ▸ h1)
        omega
      exact ih hjle h1 h2

/-- `isqrt` is correct at every number with an exact bracketing root. -/
theorem isqrt_eq (n j : Nat) (h1 : j * j ≤ n) (h2 : n < (j + 1) * (j + 1)) :
    isqrt n = j := by
  unfold isqrt
  have hjn : j ≤ n := by
    rcases Nat.eq_zero_or_pos j with h0 | hpos
    · omega
    · have : j * 1 ≤ j * j := Nat.mul_le_mul_left j hpos
      omega
  exact isqrtGo_eq_of n j n hjn h1 h2

/-- The square packing is invertible. -/
theorem natUnpair_natPair (a b : Nat) : natUnpair (natPair a b) = (a, b) := by
  unfold natPair natUnpair
  by_cases h : a < b
  · rw [if_pos h]
    have hb : isqrt (b * b + a) = b := by
      apply isqrt_eq
      · omega
      · have he : (b + 1) * (b + 1) = b * b + 2 * b + 1 := by ring
        omega
    rw [hb]
    have h1 : b * b + a - b * b = a := by omega
    rw [h1, if_pos h]
  · rw [if_neg h]
    have ha : isqrt (a * a + a + b) = a := by
      apply isqrt_eq
      · omega
      · have he : (a + 1) * (a + 1) = a * a + 2 * a + 1 := by ring
        omega
    rw [ha]
    have h2 : ¬(a * a + a + b - a * a < a) := by omega
    rw [if_neg h2]
    have h3 : a * a + a + b - a * a - a = b := by omega
    rw [h3]

/-- C1: a token issued by `signToken` for an identity id verifies to that
same id at every time strictly before the configured expiry has elapsed, and
at every time from the expiry onward verification fails with the single
`InvalidTokenError` kind. -/
theorem token_issue_verify_roundtrip (env : Env) (t0 id t : Nat) :
    jwtVerify env.jwtSecret t (signToken env t0 id) =
      (if t < t0 + env.jwtExpire then Except.ok id
       else Except.error JwtError.invalidToken) := by
  have hlen : (signToken env t0 id).length =
      jwtEncode id t0 (t0 + env.jwtExpire)
        (macOf env.jwtSecret id t0 (t0 + env.jwtExpire)) := by
    simp [signToken, jwtSign, String.length]
  unfold jwtVerify
  rw [hlen]
  unfold jwtEncode
  simp only [natUnpair_natPair]
  by_cases h : t < t0 + env.jwtExpire <;> simp [h]

/-- C5: a registration request for an email that already has an identity in
the store always fails with the duplicate-identity 400 response, creates no
record and leaves the store exactly as it was. -/
theorem signup_duplicate_email (env : Env) (db : Store) (now : Nat) (req : SignupRequest)
    (u : Identity) (h : findOneByEmail db req.email = some u) :
    signup env db now req =
      (db, { statusCode := 400, status := "error",
             message := some "Email already registered" }) := by
  unfold signup
  rw [h]

/-- Witness for C5 at a concrete store and request. -/
theorem signup_duplicate_email_witness :
    findOneByEmail [idAlice] reqAlice.email = some idAlice ∧
    signup envK [idAlice] 0 reqAlice =
      ([idAlice], { statusCode := 400, status := "error",
                    message := some "Email already registered" }) :=
  ⟨by decide, signup_duplicate_email envK [idAlice] 0 reqAlice idAlice (by decide)⟩

/-- C2: the access guard proceeds in order: no bearer token (absent header,
non-Bearer header, or the falsy empty token) gives the 401 unauthenticated
response; a present token failing verification gives 401 `Invalid token`; a
verified token whose embedded id matches no stored identity gives the 401
stale-identity response; otherwise the resolved identity is attached and the
handler runs, with the companion role check answering 403 exactly when the
role is outside the allow-list. -/
theorem access_guard_procedure (env : Env) (db : Store) (now : Nat)
    (auth : Option String) (roles : List String) (u0 : Identity) :
    ((getBearerToken auth = none ∨ getBearerToken auth = some "") →
      protect env db now auth = ProtectOutcome.denied
        { statusCode := 401, status := "error",
          message := some "You are not logged in! Please log in to get access." }) ∧
    (∀ tok, getBearerToken auth = some tok → tok ≠ "" →
      jwtVerify env.jwtSecret now tok = Except.error JwtError.invalidToken →
      protect env db now auth = ProtectOutcome.denied
        { statusCode := 401, status := "error", message := some "Invalid token" }) ∧
    (∀ tok id, getBearerToken auth = some tok → tok ≠ "" →
      jwtVerify env.jwtSecret now tok = Except.ok id → findById db id = none →
      protect env db now auth = ProtectOutcome.denied
        { statusCode := 401, status := "error",
          message := some "The user belonging to this token no longer exists." }) ∧
    (∀ tok id u, getBearerToken auth = some tok → tok ≠ "" →
      jwtVerify env.jwtSecret now tok = Except.ok id → findById db id = some u →
      protect env db now auth = ProtectOutcome.granted u) ∧
    (roles.contains u0.role = false →
      restrictTo roles u0 = some
        { statusCode := 403, status := "error",
          message := some "You do not have permission to perform this action" }) ∧
    (roles.contains u0.role = true → restrictTo roles u0 = none) := by
  refine ⟨?_, ?_, ?_, ?_, ?_, ?_⟩
  · rintro (h | h) <;> simp [protect, h]
  · intro tok h1 h2 h3
    simp [protect, h1, h2, h3]
  · intro tok id h1 h2 h3 h4
    simp [protect, h1, h2, h3, h4]
  · intro tok id u h1 h2 h3 h4
    simp [protect, h1, h2, h3, h4]
  · intro h
    have h' : u0.role ∉ roles := by simpa using h
    simp [restrictTo, h']
  · intro h
    have h' : u0.role ∈ roles := by simpa using h
    simp [restrictTo, h']

/-- Witness for C2: the five guard outcomes at concrete requests. -/
theorem access_guard_procedure_witness :
    protect envK [idAlice] 0 none = ProtectOutcome.denied
      { statusCode := 401, status := "error",
        message := some "You are not logged in! Please log in to get access." } ∧
    protect envK [idAlice] 0 (some "Bearer x") = ProtectOutcome.denied
      { statusCode := 401, status := "error", message := some "Invalid token" } ∧
    protect envK [] 0 (some ("Bearer " ++ tokAlice)) = ProtectOutcome.denied
      { statusCode := 401, status := "error",
        message := some "The user belonging to this token no longer exists." } ∧
    protect envK [idAlice] 0 (some ("Bearer " ++ tokAlice)) = ProtectOutcome.granted idAlice ∧
    restrictTo ["admin"] idAlice = some
      { statusCode := 403, status := "error",
        message := some "You do not have permission to perform this action" } ∧
    restrictTo ["student", "admin"] idAlice = none :=
  ⟨(access_guard_procedure envK [idAlice] 0 none [] idAlice).1 (Or.inl (by decide)),
   (access_guard_procedure envK [idAlice] 0 (some "Bearer x") [] idAlice).2.1
     "x" (by decide) (by decide) (by decide),
   (access_guard_procedure envK [] 0 (some ("Bearer " ++ tokAlice)) [] idAlice).2.2.1
     tokAlice 1 (by decide) (by decide) (by decide) (by decide),
   (access_guard_procedure envK [idAlice] 0 (some ("Bearer " ++ tokAlice)) [] idAlice).2.2.2.1
     tokAlice 1 idAlice (by decide) (by decide) (by decide) (by decide),
   (access_guard_procedure envK [idAlice] 0 none ["admin"] idAlice).2.2.2.2.1 (by decide),
   (access_guard_procedure envK [idAlice] 0 none ["student", "admin"] idAlice).2.2.2.2.2 (by decide)⟩

/-- C3: with both credentials supplied, a login whose email matches no
identity and a login whose email matches an identity but whose password does
not match the stored hash produce the very same response — status code,
kind and message — so the response does not reveal which failure
occurred. -/
theorem login_non_enumeration (env : Env) (db : Store) (now : Nat) (e p : String)
    (he : e ≠ "") (hp : p ≠ "") :
    (findOneByEmail db e = none →
      login env db now { email := some e, password := some p } =
        { statusCode := 401, status := "error",
          message := some "Incorrect email or password" }) ∧
    (∀ u, findOneByEmail db e = some u → comparePassword u p = false →
      login env db now { email := some e, password := some p } =
        { statusCode := 401, status := "error",
          message := some "Incorrect email or password" }) := by
  constructor
  · intro h
    simp [login, jsFalsyStr, he, hp, h]
  · intro u h hcmp
    simp [login, jsFalsyStr, he, hp, h, hcmp]

/-- Witness for C3: wrong password for an existing email and a non-existent
email get the identical response. -/
theorem login_non_enumeration_witness :
    findOneByEmail [idAlice] "z@x.io" = none ∧
    login envK [idAlice] 0 { email := some "z@x.io", password := some "pw1" } =
      { statusCode := 401, status := "error",
        message := some "Incorrect email or password" } ∧
    findOneByEmail [idAlice] "a@x.io" = some idAlice ∧
    comparePassword idAlice "wrong" = false ∧
    login envK [idAlice] 0 { email := some "a@x.io", password := some "wrong" } =
      { statusCode := 401, status := "error",
        message := some "Incorrect email or password" } :=
  ⟨by decide,
   (login_non_enumeration envK [idAlice] 0 "z@x.io" "pw1"
     (by decide) (by decide)).1 (by decide),
   by decide, by decide,
   (login_non_enumeration envK [idAlice] 0 "a@x.io" "wrong"
     (by decide) (by decide)).2 idAlice (by decide) (by decide)⟩

/-- C4: when an identity holds the only live reset ticket matching a raw
token, the first reset call answers 200 and persists, in one update, the new
password hash together with both ticket fields cleared; any later reset call
with the same raw token fails with the invalid-or-expired 400 response and
returns the store unchanged. -/
theorem reset_ticket_single_use (db : Store) (now now2 : Nat)
    (raw newPw pw2 : String) (u : Identity)
    (hfind : db.find? (resetTicketLive now (sha256Hex raw)) = some u)
    (huniq : ∀ v ∈ db, v.passwordResetToken = some (sha256Hex raw) → v = u) :
    (resetPassword db now raw newPw).2 =
      { statusCode := 200, status := "success",
        message := some "Password reset successfully" } ∧
    consumeTicket newPw u ∈ (resetPassword db now raw newPw).1 ∧
    resetPassword (resetPassword db now raw newPw).1 now2 raw pw2 =
      ((resetPassword db now raw newPw).1,
       { statusCode := 400, status := "error",
         message := some "Invalid or expired reset token" }) := by
  have hmem : u ∈ db := List.mem_of_find?_eq_some hfind
  have hnone : (saveUser db (consumeTicket newPw u)).find?
      (resetTicketLive now2 (sha256Hex raw)) = none := by
    rw [List.find?_eq_none]
    intro x hx
    rcases List.mem_map.mp hx with ⟨y, hy, hxy⟩
    intro hlive
    have htok : x.passwordResetToken = some (sha256Hex raw) := by
      have hb := (Bool.and_eq_true _ _).mp hlive
      exact of_decide_eq_true hb.1
    by_cases hid : y._id = (consumeTicket newPw u)._id
    · rw [if_pos hid] at hxy
      rw [← hxy] at htok
      simp [consumeTicket] at htok
    · rw [if_neg hid] at hxy
      have hyu : y = u := huniq y hy (by rw [hxy]; exact htok)
      exact hid (by rw [hyu]; rfl)
  refine ⟨?_, ?_, ?_⟩
  · simp only [resetPassword, hfind]
  · simp only [resetPassword, hfind, saveUser]
    exact List.mem_map.mpr ⟨u, hmem, by simp [consumeTicket]⟩
  · simp only [resetPassword, hfind, hnone]

/-- Witness for C4: a concrete two-identity store in which only `idBob`
holds the live ticket for raw token `tkt`. -/
theorem reset_ticket_single_use_witness :
    [idAlice, idBob].find? (resetTicketLive 50 (sha256Hex "tkt")) = some idBob ∧
    (∀ v ∈ [idAlice, idBob], v.passwordResetToken = some (sha256Hex "tkt") → v = idBob) ∧
    ((resetPassword [idAlice, idBob] 50 "tkt" "newpw").2 =
      { statusCode := 200, status := "success",
        message := some "Password reset successfully" } ∧
    consumeTicket "newpw" idBob ∈ (resetPassword [idAlice, idBob] 50 "tkt" "newpw").1 ∧
    resetPassword (resetPassword [idAlice, idBob] 50 "tkt" "newpw").1 60 "tkt" "other" =
      ((resetPassword [idAlice, idBob] 50 "tkt" "newpw").1,
       { statusCode := 400, status := "error",
         message := some "Invalid or expired reset token" })) :=
  ⟨by decide, by decide,
   reset_ticket_single_use [idAlice, idBob] 50 60 "tkt" "newpw" "other" idBob
     (by decide) (by decide)⟩

/-- C6: a forgot-password request for an existing email whose notification
send fails still answers the 200 success envelope, with the hashed reset
ticket already persisted on the identity. -/
theorem forgot_password_send_failure_still_success (db : Store) (now ttl : Nat)
    (raw email : String) (u : Identity)
    (h : findOneByEmail db email = some u) :
    (forgotPassword db now ttl raw EmailOutcome.failed email).2 =
      { statusCode := 200, status := "success",
        message := some "Password reset link sent to email" } ∧
    generatePasswordResetToken raw now ttl u ∈
      (forgotPassword db now ttl raw EmailOutcome.failed email).1 := by
  constructor
  · simp only [forgotPassword, h]
  · simp only [forgotPassword, h, saveUser]
    exact List.mem_map.mpr
      ⟨u, List.mem_of_find?_eq_some h, by simp [generatePasswordResetToken]⟩

/-- Witness for C6 at a concrete store. -/
theorem forgot_password_send_failure_still_success_witness :
    findOneByEmail [idAlice] "a@x.io" = some idAlice ∧
    ((forgotPassword [idAlice] 10 600 "fresh" EmailOutcome.failed "a@x.io").2 =
      { statusCode := 200, status := "success",
        message := some "Password reset link sent to email" } ∧
    generatePasswordResetToken "fresh" 10 600 idAlice ∈
      (forgotPassword [idAlice] 10 600 "fresh" EmailOutcome.failed "a@x.io").1) :=
  ⟨by decide,
   forgot_password_send_failure_still_success [idAlice] 10 600 "fresh" "a@x.io" idAlice
     (by decide)⟩

/-- C7: the signup response carries no information about the password — the
whole response is identical whatever password was supplied (so neither the
password nor its stored hash appears in it) — and on success its data is
exactly the public five-field projection of the new identity. -/
theorem signup_response_excludes_password (env : Env) (db : Store) (now : Nat)
    (req : SignupRequest) (p1 p2 : String) :
    (signup env db now { req with password := p1 }).2 =
      (signup env db now { req with password := p2 }).2 ∧
    (findOneByEmail db req.email = none →
      (signup env db now req).2.data = some
        { id := freshId db, fullName := req.fullName, email := req.email,
          role := req.role, isEmailVerified := some true }) := by
  constructor
  · cases h : findOneByEmail db req.email <;>
      simp [signup, h]
  · intro h
    simp [signup, h]

/-- Witness for C7 at a concrete store and request. -/
theorem signup_response_excludes_password_witness :
    findOneByEmail [] reqCarol.email = none ∧
    (signup envK [] 0 reqCarol).2.data = some
      { id := freshId [], fullName := "Carol", email := "c@x.io",
        role := "student", isEmailVerified := some true } :=
  ⟨by decide,
   (signup_response_excludes_password envK [] 0 reqCarol "x" "y").2 (by decide)⟩

/-- C8: a successful (non-OAuth) registration stores the new identity with
the verification flag already true and with no email-verification ticket
involved. -/
theorem signup_marks_verified_immediately (env : Env) (db : Store) (now : Nat)
    (req : SignupRequest) (h : findOneByEmail db req.email = none) :
    ∃ u, (signup env db now req).1 = db ++ [u] ∧
      u.email = req.email ∧ u.isEmailVerified = true ∧
      u.emailVerificationToken = none ∧ u.emailVerificationExpires = none := by
  refine ⟨{ _id := freshId db
            fullName := req.fullName
            email := req.email
            password := some (bcryptHash req.password)
            role := req.role
            department := req.department
            yearOfStudy := req.yearOfStudy
            studentId := req.studentId
            isEmailVerified := true }, ?_, rfl, rfl, rfl, rfl⟩
  simp only [signup, h]

/-- Witness for C8 at a concrete store and request. -/
theorem signup_marks_verified_immediately_witness :
    findOneByEmail [idAlice] reqCarol.email = none ∧
    ∃ u, (signup envK [idAlice] 0 reqCarol).1 = [idAlice] ++ [u] ∧
      u.email = reqCarol.email ∧ u.isEmailVerified = true ∧
      u.emailVerificationToken = none ∧ u.emailVerificationExpires = none :=
  ⟨by decide,
   signup_marks_verified_immediately envK [idAlice] 0 reqCarol (by decide)⟩

/-- A response in the standard envelope: a known HTTP status code, a status
string of `success` or `error`, and a message on every error. -/
def envelopeOk (r : Response) : Prop :=
  (r.status = "success" ∨ r.status = "error") ∧
  (r.statusCode = 200 ∨ r.statusCode = 201 ∨ r.statusCode = 400 ∨
    r.statusCode = 401 ∨ r.statusCode = 403 ∨ r.statusCode = 404) ∧
  (r.status = "error" → r.message.isSome = true)

/-- C9: every handler of the auth surface, on every input — the token
verifier being total over arbitrary token strings, and the store
collaborators modelled as total per the spec — produces a response in the
standard envelope (or, for the guard, passes control on), so no error
escapes a handler. -/
theorem handlers_always_answer_envelope (env : Env) (db : Store) (now ttl : Nat)
    (sreq : SignupRequest) (lreq : LoginRequest) (email raw pw : String)
    (o : EmailOutcome) (auth : Option String) (roles : List String) (u0 : Identity) :
    envelopeOk (signup env db now sreq).2 ∧
    envelopeOk (login env db now lreq) ∧
    envelopeOk (forgotPassword db now ttl raw o email).2 ∧
    envelopeOk (resetPassword db now raw pw).2 ∧
    envelopeOk (verifyEmail db now raw).2 ∧
    (match protect env db now auth with
     | ProtectOutcome.denied r => envelopeOk r
     | ProtectOutcome.granted _ => True) ∧
    (match restrictTo roles u0 with
     | some r => envelopeOk r
     | none => True) := by
  refine ⟨?_, ?_, ?_, ?_, ?_, ?_, ?_⟩
  · unfold signup
    cases findOneByEmail db sreq.email <;> simp [envelopeOk]
  · unfold login
    by_cases hc : (jsFalsyStr lreq.email || jsFalsyStr lreq.password) = true
    · simp [hc, envelopeOk]
    · simp only [hc]
      cases findOneByEmail db (lreq.email.getD "") with
      | none => simp [envelopeOk, hc]
      | some u =>
        by_cases hcmp : comparePassword u (lreq.password.getD "") = true <;>
          simp [envelopeOk, hc, hcmp]
  · unfold forgotPassword
    cases findOneByEmail db email <;> simp [envelopeOk]
  · unfold resetPassword
    cases h : db.find? (resetTicketLive now (sha256Hex raw)) <;> simp [envelopeOk, h]
  · unfold verifyEmail
    cases h : db.find? (verifyTicketLive now (sha256Hex raw)) <;> simp [envelopeOk, h]
  · unfold protect
    cases getBearerToken auth with
    | none => simp [envelopeOk]
    | some tok =>
      by_cases htok : tok = ""
      · simp [htok, envelopeOk]
      · simp only [htok, if_false]
        cases jwtVerify env.jwtSecret now tok with
        | error e => simp [envelopeOk, htok]
        | ok id =>
          cases hf : findById db id <;> simp [envelopeOk, htok, hf]
  · unfold restrictTo
    by_cases hr : u0.role ∈ roles <;> simp [envelopeOk, hr]

/-- Witness for C9: the envelope property evaluated at one concrete login. -/
theorem handlers_always_answer_envelope_witness :
    envelopeOk (login envK [idAlice] 0 { email := some "a@x.io", password := some "pw1" }) :=
  (handlers_always_answer_envelope envK [idAlice] 0 0 reqCarol
    { email := some "a@x.io", password := some "pw1" } "a@x.io" "t" "p"
    EmailOutcome.delivered none [] idAlice).2.1

/-- A session with the `ongoing` status is not a `completed` one. -/
theorem not_completed_of_ongoing (s : RawSession) (h : isOngoing s = true) :
    isCompleted s = false := by
  have hs : s.status = some "ongoing" := of_decide_eq_true h
  simp [isCompleted, hs]

/-- The `forEach` loop unrolled: folding the categorization step appends to
each bucket exactly the formatted sessions whose raw status selects that
bucket. -/
theorem categorize_foldl (fd fm : String → String → String) :
    ∀ (l : List (Option RawSession)) (acc : CategorizedSessions),
      l.foldl (categorizeStep fd fm) acc =
        { ongoing := acc.ongoing ++
            (((l.filterMap id).filter isOngoing).map (formatSession fd fm)),
          previous := acc.previous ++
            (((l.filterMap id).filter isCompleted).map (formatSession fd fm)),
          upcoming := acc.upcoming ++
            (((l.filterMap id).filter
                (fun s => !(isOngoing s) && !(isCompleted s))).map (formatSession fd fm)) } := by
  intro l
  induction l with
  | nil => intro acc; simp
  | cons hd tl ih =>
    intro acc
    cases hd with
    | none =>
      rw [List.foldl_cons]
      rw [ih]
      simp [categorizeStep]
    | some s =>
      rw [List.foldl_cons]
      rw [ih]
      cases hOn : isOngoing s with
      | true =>
        have hC := not_completed_of_ongoing s hOn
        simp [categorizeStep, hOn, hC, List.filter_cons]
      | false =>
        cases hC : isCompleted s with
        | true => simp [categorizeStep, hOn, hC, List.filter_cons]
        | false => simp [categorizeStep, hOn, hC, List.filter_cons]

/-- The three bucket predicates split any list of sessions without loss. -/
theorem three_filter_length (L : List RawSession) :
    (L.filter isOngoing).length + (L.filter isCompleted).length +
      (L.filter (fun s => !(isOngoing s) && !(isCompleted s))).length = L.length := by
  induction L with
  | nil => rfl
  | cons s tl ih =>
    cases hOn : isOngoing s with
    | true =>
      have hC := not_completed_of_ongoing s hOn
      simp [List.filter_cons, hOn, hC]
      omega
    | false =>
      cases hC : isCompleted s with
      | true =>
        simp [List.filter_cons, hOn, hC]
        omega
      | false =>
        simp [List.filter_cons, hOn, hC]
        omega

/-- C10: the session-list categorization is a partition — the `ongoing`
bucket is exactly the formatted sessions whose raw status is `ongoing`, the
`previous` bucket exactly those with status `completed`, the `upcoming`
bucket exactly all the others (cancelled, unknown or missing status), null
entries are skipped, and the bucket sizes add up to the number of non-null
entries. -/
theorem sessions_categorization_partition (fd fm : String → String → String)
    (l : List (Option RawSession)) :
    (categorizeSessions fd fm l).ongoing =
      ((l.filterMap id).filter isOngoing).map (formatSession fd fm) ∧
    (categorizeSessions fd fm l).previous =
      ((l.filterMap id).filter isCompleted).map (formatSession fd fm) ∧
    (categorizeSessions fd fm l).upcoming =
      ((l.filterMap id).filter
        (fun s => !(isOngoing s) && !(isCompleted s))).map (formatSession fd fm) ∧
    (categorizeSessions fd fm l).ongoing.length +
      (categorizeSessions fd fm l).previous.length +
      (categorizeSessions fd fm l).upcoming.length = (l.filterMap id).length := by
  have h := categorize_foldl fd fm l { ongoing := [], previous := [], upcoming := [] }
  unfold categorizeSessions
  rw [h]
  refine ⟨by simp, by simp, by simp, ?_⟩
  simp only [List.nil_append, List.length_map]
  exact three_filter_length (l.filterMap id)
